import Mathlib

/-!
Verification development for the broker-korea plugin (Rust, WASM guest).

The definitions below are a shallow embedding of the repository's source:

* `src/http.rs` — host-boundary codec (`execute`, pointer/length packing) and
  `HttpResponse::is_success`;
* `src/kis/auth.rs` — token acquisition (`get_token`, `TokenInfo::is_expired`)
  and hashkey signing (`get_hashkey`);
* `src/kis/mod.rs` — `KisClient` (`ensure_auth`, `build_headers`, `cano`,
  `acnt_prdt_cd`);
* `src/kis/types.rs` — `KisError`, `KisApiResponse::is_success`;
* `src/kis/domestic_stock.rs` — `domestic_buy`, `domestic_sell`,
  `domestic_balance`, `domestic_current_price` response handling;
* `src/lib.rs` — the plugin shell entry points (`initialize`, `get_accounts`,
  `get_positions`, `submit_order`) and `serialize_response`.

Machine integers are modelled as `Nat` with explicit `% 2 ^ w` where wrap
matters; JSON bodies are modelled as trees (`Json`) rather than raw text, with
serde field semantics (required vs `Option` fields, object checks) reproduced
by the parse functions; the remote host transport is modelled as a script of
responses consumed in order, recording the path of every issued call.
-/

/-- Model of a JSON value.  `num` carries an `Int`; fractional literals are
outside the modelled domain (no claim depends on them). -/
inductive Json where
  | null : Json
  | bool (b : Bool) : Json
  | num (n : Int) : Json
  | str (s : String) : Json
  | arr (elems : List Json) : Json
  | obj (fields : List (String × Json)) : Json

/-- Field lookup on a JSON object (first binding wins, as in `serde_json`). -/
def Json.getField (j : Json) (k : String) : Option Json :=
  match j with
  | .obj fs => fs.lookup k
  | _ => none

/-- String view of a JSON value. -/
def Json.asString : Json → Option String
  | .str s => some s
  | _ => none

/-- Model of the error taxonomy `KisError` from `src/kis/types.rs`. -/
inductive KisError where
  | Auth (msg : String) : KisError
  | Api (code : String) (message : String) : KisError
  | Network (msg : String) : KisError
  | Parse (msg : String) : KisError
  | Validation (msg : String) : KisError
deriving DecidableEq

/-- Rendering of `KisError`, mirroring its `Display` impl in
`src/kis/types.rs` lines 58-68. -/
def KisError.render : KisError → String
  | .Auth m => "Auth error: " ++ m
  | .Api c m => "API error [" ++ c ++ "]: " ++ m
  | .Network m => "Network error: " ++ m
  | .Parse m => "Parse error: " ++ m
  | .Validation m => "Validation error: " ++ m

/-! ## Host Call Codec (`src/http.rs`, `src/lib.rs`)

`serialize_response` (src/lib.rs lines 376-387) packs a response buffer as
`((out_ptr as u64) << 32) | (out_len as u64)` where `out_ptr` and `out_len`
are `i32`.  In Rust, `i32 as u64` SIGN-EXTENDS the value, so both halves go
through sign extension before being combined.  `execute` (src/http.rs lines
69-85) unpacks with `(w >> 32) as i32` and `(w & 0xFFFFFFFF) as i32`.

We represent an `i32` by its bit pattern, a `Nat` below `2 ^ 32`. -/

/-- Sign extension of an `i32` bit pattern into a `u64` bit pattern
(`i32 as u64` in Rust). -/
def sign_extend_i32 (x : Nat) : Nat :=
  if x < 2 ^ 31 then x else x + (2 ^ 64 - 2 ^ 32)

/-- Packing of a pointer/length pair into one `u64`, exactly as in
`serialize_response`: `((out_ptr as u64) << 32) | (out_len as u64)`. -/
def pack_ptr_len (ptrBits lenBits : Nat) : Nat :=
  ((sign_extend_i32 ptrBits <<< 32) % 2 ^ 64) ||| sign_extend_i32 lenBits

/-- Unpacking the pointer half: `(result_packed >> 32) as i32`
(src/http.rs line 72). -/
def unpack_ptr (w : Nat) : Nat :=
  (w >>> 32) % 2 ^ 32

/-- Unpacking the length half: `(result_packed & 0xFFFFFFFF) as i32`
(src/http.rs line 73). -/
def unpack_len (w : Nat) : Nat :=
  w &&& (2 ^ 32 - 1)

/-- Model of `HttpResponse` (src/http.rs lines 38-44).  The `body` string is
modelled as `Option Json`: `some j` is a body that parses to the JSON tree
`j`, `none` a body that is not valid JSON (e.g. the empty string).  Response
headers are never read by the code under verification and are omitted. -/
structure HttpResponse where
  status : Nat
  body : Option Json
  error : Option String

/-- Transport success rule, `HttpResponse::is_success` (src/http.rs lines
47-49): no error marker and a 2xx status. -/
def HttpResponse.is_success (r : HttpResponse) : Bool :=
  r.error.isNone && (decide (200 ≤ r.status) && decide (r.status < 300))

/-- Response `execute` substitutes when the host hands back a null
pointer/length (src/http.rs lines 75-82). -/
def nullHttpResponse : HttpResponse :=
  { status := 0, body := none, error := some "Host function returned null response" }

/-- Model of `execute`'s decoding of the host's packed return word
(src/http.rs lines 69-92).  `mem ptr len` stands for deserializing the `len`
bytes at `ptr`; passing it as a function makes the (non-)dereference of the
address observable: when the zero check fires the result cannot depend on
`mem`. -/
def host_execute (packed : Nat) (mem : Nat → Nat → Option HttpResponse) : HttpResponse :=
  let res_ptr := unpack_ptr packed
  let res_len := unpack_len packed
  if res_ptr = 0 ∨ res_len = 0 then
    nullHttpResponse
  else
    match mem res_ptr res_len with
    | some r => r
    | none =>
      { status := 0, body := none, error := some "Failed to parse response" }

/-- Helper: for lengths whose `i32` is nonnegative, packing is plain base-`2 ^ 32`
positional combination. -/
theorem pack_ptr_len_eq (a l : Nat) (ha : a < 2 ^ 32) (hl : l < 2 ^ 31) :
    pack_ptr_len a l = 2 ^ 32 * a + l := by
  unfold pack_ptr_len sign_extend_i32
  rw [if_pos hl]
  have h1 : ((if a < 2 ^ 31 then a else a + (2 ^ 64 - 2 ^ 32)) <<< 32) % 2 ^ 64
      = 2 ^ 32 * a := by
    rw [Nat.shiftLeft_eq]
    split <;> omega
  rw [h1]
  exact (Nat.mul_add_lt_is_or (by omega) a).symm

/-- C4 (counterexample): the pack/unpack roundtrip fails at address `1`,
length `2 ^ 31`.  `serialize_response` sign-extends the length (`i32 as u64`)
before the bitwise or, so a length with the top bit set floods the address
half of the word with ones: the decoded address is `0xFFFFFFFF`, not `1`. -/
theorem pack_unpack_cex :
    unpack_ptr (pack_ptr_len 1 (2 ^ 31)) = 0xFFFFFFFF
    ∧ unpack_len (pack_ptr_len 1 (2 ^ 31)) = 2 ^ 31
    ∧ (0xFFFFFFFF : Nat) ≠ 1 := by
  refine ⟨?_, ?_, by decide⟩ <;> decide

/-- C4 (amended): for every 32-bit address and every length below `2 ^ 31`
(i.e. whose `i32` representation is nonnegative — every byte length the
module actually produces), unpacking the packed word returns exactly the
original address and length. -/
theorem pack_unpack_roundtrip (a l : Nat) (ha : a < 2 ^ 32) (hl : l < 2 ^ 31) :
    unpack_ptr (pack_ptr_len a l) = a ∧ unpack_len (pack_ptr_len a l) = l := by
  rw [pack_ptr_len_eq a l ha hl]
  constructor
  · unfold unpack_ptr
    rw [Nat.shiftRight_eq_div_pow]
    omega
  · unfold unpack_len
    rw [Nat.and_pow_two_sub_one_eq_mod]
    omega

/-- C4 witness: the roundtrip theorem applied at address 3, length 7. -/
theorem pack_unpack_roundtrip_witness :
    unpack_ptr (pack_ptr_len 3 7) = 3 ∧ unpack_len (pack_ptr_len 3 7) = 7 :=
  pack_unpack_roundtrip 3 7 (by norm_num) (by norm_num)

/-- C9: a packed word whose decoded address or length is zero is mapped by
`execute` to the explicit null-response failure (error marker set, empty
body, not a transport success), and the result does not depend on guest
memory — the address is never dereferenced. -/
theorem null_packed_word_is_failure (packed : Nat)
    (mem mem2 : Nat → Nat → Option HttpResponse)
    (h : unpack_ptr packed = 0 ∨ unpack_len packed = 0) :
    host_execute packed mem = nullHttpResponse
    ∧ host_execute packed mem = host_execute packed mem2
    ∧ (host_execute packed mem).error = some "Host function returned null response"
    ∧ (host_execute packed mem).body = none
    ∧ (host_execute packed mem).is_success = false := by
  have h1 : ∀ m : Nat → Nat → Option HttpResponse,
      host_execute packed m = nullHttpResponse := by
    intro m
    unfold host_execute
    simp only [if_pos h]
  rw [h1 mem, h1 mem2]
  exact ⟨rfl, rfl, rfl, rfl, rfl⟩

/-- C9 witness: the theorem applied to the concrete packed word `5`
(address 0, length 5) and a memory on which any dereference would be
observable. -/
theorem null_packed_word_is_failure_witness :
    host_execute 5 (fun _ _ => some { status := 200, body := none, error := none })
      = nullHttpResponse
    ∧ (host_execute 5 (fun _ _ => some { status := 200, body := none, error := none })).is_success
      = false := by
  have h := null_packed_word_is_failure 5
    (fun _ _ => some { status := 200, body := none, error := none })
    (fun _ _ => none) (Or.inl (by decide))
  exact ⟨h.1, h.2.2.2.2⟩

/-! ## Session manager (`src/kis/auth.rs`, `src/kis/mod.rs`) -/

/-- Model of `TokenInfo` (src/kis/auth.rs lines 10-17).  All timestamps are
Unix seconds as `u64` bit values (`Nat` below `2 ^ 64`). -/
structure TokenInfo where
  access_token : String
  token_type : String
  expires_in : Nat
  expires_at : Nat
deriving DecidableEq

/-- Absolute expiry stored by `get_token` (src/kis/auth.rs lines 58-59):
`expires_at = now + expires_in`, a wrapping `u64` addition. -/
def token_expires_at (now expires_in : Nat) : Nat :=
  (now + expires_in) % 2 ^ 64

/-- Model of `TokenInfo::is_expired` (src/kis/auth.rs lines 21-24):
`expires_at <= now + 300` with a wrapping `u64` addition on the right. -/
def TokenInfo.is_expired (t : TokenInfo) (now : Nat) : Bool :=
  decide (t.expires_at ≤ (now + 300) % 2 ^ 64)

/-- C3: a credential acquired at instant `T` with lifetime `L` stores
absolute expiry `T + L`, and it is usable (not expired) at `now` iff
`now + 300 < T + L`; in particular it is usable at `now = T + L - 301`, and
not usable at `now = T + L - 300` and at every later instant (within the
`u64` range). -/
theorem credential_expiry_boundary (T L now : Nat)
    (hTL : T + L < 2 ^ 64) (hnow : now + 300 < 2 ^ 64) :
    token_expires_at T L = T + L
    ∧ ((TokenInfo.is_expired ⟨"tok", "Bearer", L, token_expires_at T L⟩ now = false)
        ↔ now + 300 < T + L)
    ∧ (301 ≤ T + L →
        TokenInfo.is_expired ⟨"tok", "Bearer", L, token_expires_at T L⟩ (T + L - 301) = false)
    ∧ TokenInfo.is_expired ⟨"tok", "Bearer", L, token_expires_at T L⟩ (T + L - 300) = true
    ∧ (∀ m, T + L - 300 ≤ m → m + 300 < 2 ^ 64 →
        TokenInfo.is_expired ⟨"tok", "Bearer", L, token_expires_at T L⟩ m = true) := by
  have hstore : token_expires_at T L = T + L := by
    unfold token_expires_at; omega
  refine ⟨hstore, ?_, ?_, ?_, ?_⟩ <;>
    simp only [hstore, TokenInfo.is_expired, decide_eq_false_iff_not, decide_eq_true_eq,
      not_le]
  · omega
  · intro h301; omega
  · omega
  · intro m hm hm64; omega

/-- C3 witness: the boundary theorem applied at `T = 1000`, `L = 86400`
(expiry at 87400): usable at 87099, expired at 87100. -/
theorem credential_expiry_boundary_witness :
    TokenInfo.is_expired ⟨"tok", "Bearer", 86400, token_expires_at 1000 86400⟩ 87099 = false
    ∧ TokenInfo.is_expired ⟨"tok", "Bearer", 86400, token_expires_at 1000 86400⟩ 87100 = true := by
  have h := credential_expiry_boundary 1000 86400 0 (by norm_num) (by norm_num)
  exact ⟨by simpa using h.2.2.1 (by norm_num), by simpa using h.2.2.2.1⟩

/-- Model of the nested hashkey shape `HashkeyBody` (src/kis/auth.rs lines
85-89): an object under `BODY` with a required `HASH` field. -/
structure HashkeyBody where
  hash : String
deriving DecidableEq

/-- Model of `HashkeyResponse` (src/kis/auth.rs lines 77-83): an optional
top-level `HASH` field and an optional nested `BODY.HASH`. -/
structure HashkeyResponse where
  body : Option HashkeyBody
  hash : Option String
deriving DecidableEq

/-- Signature extraction from a parsed hashkey response, exactly the tail of
`get_hashkey` (src/kis/auth.rs lines 118-126): try the bare top-level field
first, then the nested one, and fail if neither is present. -/
def hashkey_of_response (r : HashkeyResponse) : Except KisError String :=
  match r.hash with
  | some hash => .ok hash
  | none =>
    match r.body with
    | some body => .ok body.hash
    | none => .error (.Parse "Hashkey not found in response")

/-- C8: signature extraction returns the bare top-level field whenever it is
present (even when the nested field is also present), otherwise the nested
field, and fails exactly when neither is present. -/
theorem hashkey_extraction (r : HashkeyResponse) :
    (∀ h, r.hash = some h → hashkey_of_response r = .ok h)
    ∧ (r.hash = none → ∀ b, r.body = some b → hashkey_of_response r = .ok b.hash)
    ∧ ((hashkey_of_response r = .error (.Parse "Hashkey not found in response"))
        ↔ (r.hash = none ∧ r.body = none)) := by
  refine ⟨?_, ?_, ?_⟩
  · intro h hh
    unfold hashkey_of_response
    rw [hh]
  · intro hh b hb
    unfold hashkey_of_response
    rw [hh, hb]
  · unfold hashkey_of_response
    rcases hh : r.hash with _ | h
    · rcases hb : r.body with _ | b <;> simp
    · simp

/-- C8 witness: extraction applied to concrete responses — both fields
present (bare wins), only nested present, neither present. -/
theorem hashkey_extraction_witness :
    hashkey_of_response { body := some ⟨"nested"⟩, hash := some "bare" } = .ok "bare"
    ∧ hashkey_of_response { body := some ⟨"nested"⟩, hash := none } = .ok "nested"
    ∧ hashkey_of_response { body := none, hash := none }
        = .error (.Parse "Hashkey not found in response") := by
  refine ⟨(hashkey_extraction _).1 "bare" rfl,
    (hashkey_extraction _).2.1 rfl ⟨"nested"⟩ rfl,
    ((hashkey_extraction { body := none, hash := none }).2.2).mpr ⟨rfl, rfl⟩⟩

/-! ## Remote envelope (`src/kis/types.rs`, `src/kis/domestic_stock.rs`) -/

/-- Model of `KisApiResponse<T>` (src/kis/types.rs lines 74-87). -/
structure KisApiResponse (T : Type) where
  rt_cd : String
  msg_cd : String
  msg1 : String
  output : Option T
  output1 : Option (List T)
  output2 : Option Json

/-- Model of `KisApiResponse::is_success` (src/kis/types.rs lines 90-92):
string equality of `rt_cd` with `"0"`. -/
def KisApiResponse.is_success {T : Type} (r : KisApiResponse T) : Bool :=
  decide (r.rt_cd = "0")

/-- Envelope handling shared by the single-result domain calls, exactly the
tail of `domestic_buy` (src/kis/domestic_stock.rs lines 237-247) and of
`domestic_current_price` (lines 538-548), which differ only in the
missing-payload diagnostic. -/
def envelope_single_result {T : Type} (noOutputMsg : String)
    (r : KisApiResponse T) : Except KisError T :=
  if r.is_success = false then
    .error (.Api r.msg_cd r.msg1)
  else
    match r.output with
    | some o => .ok o
    | none => .error (.Parse noOutputMsg)

/-- Model of `CashOrderResponse` (src/kis/domestic_stock.rs lines 39-47). -/
structure CashOrderResponse where
  odno : Option String
  ord_tmd : Option String
deriving DecidableEq

/-- Model of `CurrentPriceResponse` (src/kis/domestic_stock.rs lines
151-180). -/
structure CurrentPriceResponse where
  stck_shrn_iscd : Option String
  stck_prpr : Option String
  prdy_vrss : Option String
  prdy_ctrt : Option String
  acml_vol : Option String
  acml_tr_pbmn : Option String
  stck_oprc : Option String
  stck_hgpr : Option String
  stck_lwpr : Option String
deriving DecidableEq

/-- Envelope handling of `domestic_buy` / `domestic_sell` /
`domestic_revise_order` (order-shaped payloads). -/
def order_envelope_result (r : KisApiResponse CashOrderResponse) :
    Except KisError CashOrderResponse :=
  envelope_single_result "No output in order response" r

/-- Envelope handling of `domestic_current_price`. -/
def price_envelope_result (r : KisApiResponse CurrentPriceResponse) :
    Except KisError CurrentPriceResponse :=
  envelope_single_result "No output in price response" r

/-- C6: a single-result envelope with `rt_cd = "0"` but no `output` payload
yields the missing-payload error, never a success value, for both the order
calls and the current-price call. -/
theorem missing_payload_is_error (r : KisApiResponse CashOrderResponse)
    (q : KisApiResponse CurrentPriceResponse)
    (hr : r.rt_cd = "0") (hrout : r.output = none)
    (hq : q.rt_cd = "0") (hqout : q.output = none) :
    order_envelope_result r = .error (.Parse "No output in order response")
    ∧ (∀ v, order_envelope_result r ≠ .ok v)
    ∧ price_envelope_result q = .error (.Parse "No output in price response")
    ∧ (∀ v, price_envelope_result q ≠ .ok v) := by
  have hone : order_envelope_result r = .error (.Parse "No output in order response") := by
    unfold order_envelope_result envelope_single_result
    rw [if_neg (by simp [KisApiResponse.is_success, hr]), hrout]
  have htwo : price_envelope_result q = .error (.Parse "No output in price response") := by
    unfold price_envelope_result envelope_single_result
    rw [if_neg (by simp [KisApiResponse.is_success, hq]), hqout]
  refine ⟨hone, ?_, htwo, ?_⟩
  · intro v hv; rw [hone] at hv; exact Except.noConfusion hv
  · intro v hv; rw [htwo] at hv; exact Except.noConfusion hv

/-- C6 witness: the missing-payload theorem applied to concrete successful
envelopes with no `output`. -/
theorem missing_payload_is_error_witness :
    order_envelope_result
        { rt_cd := "0", msg_cd := "APBK0000", msg1 := "ok",
          output := none, output1 := none, output2 := none }
      = .error (.Parse "No output in order response")
    ∧ price_envelope_result
        { rt_cd := "0", msg_cd := "APBK0000", msg1 := "ok",
          output := none, output1 := none, output2 := none }
      = .error (.Parse "No output in price response") := by
  have h := missing_payload_is_error
    { rt_cd := "0", msg_cd := "APBK0000", msg1 := "ok",
      output := none, output1 := none, output2 := none }
    { rt_cd := "0", msg_cd := "APBK0000", msg1 := "ok",
      output := none, output1 := none, output2 := none }
    rfl rfl rfl rfl
  exact ⟨h.1, h.2.2.1⟩

/-- Model of `BalanceItem` (src/kis/domestic_stock.rs lines 93-119). -/
structure BalanceItem where
  pdno : Option String
  prdt_name : Option String
  hldg_qty : Option String
  pchs_avg_pric : Option String
  prpr : Option String
  evlu_pfls_amt : Option String
  evlu_pfls_rt : Option String
  evlu_amt : Option String
deriving DecidableEq

/-- Model of `BalanceSummary` (src/kis/domestic_stock.rs lines 122-139). -/
structure BalanceSummary where
  tot_evlu_amt : Option String
  dnca_tot_amt : Option String
  ord_psbl_cash : Option String
  evlu_pfls_smtl_amt : Option String
  evlu_pfls_rt : Option String
deriving DecidableEq

/-- Model of the local `BalanceApiResponse` inside `domestic_balance`
(src/kis/domestic_stock.rs lines 473-480). -/
structure BalanceApiResponse where
  rt_cd : String
  msg_cd : String
  msg1 : String
  output1 : Option (List BalanceItem)
  output2 : Option (List BalanceSummary)
deriving DecidableEq

/-- Fallback summary built when `output2` supplies no row
(src/kis/domestic_stock.rs lines 503-509). -/
def emptyBalanceSummary : BalanceSummary :=
  { tot_evlu_amt := none, dnca_tot_amt := none, ord_psbl_cash := none,
    evlu_pfls_smtl_amt := none, evlu_pfls_rt := none }

/-- Envelope handling of `domestic_balance`, exactly src/kis/domestic_stock.rs
lines 486-511: non-`"0"` return code is a remote error; a missing `output1`
is an empty list; the summary is the first `output2` row, or the all-`None`
fallback. -/
def balance_envelope_result (r : BalanceApiResponse) :
    Except KisError (List BalanceItem × BalanceSummary) :=
  if r.rt_cd ≠ "0" then
    .error (.Api r.msg_cd r.msg1)
  else
    let items := r.output1.getD []
    let summary :=
      match r.output2 with
      | some (s :: _) => s
      | some [] => emptyBalanceSummary
      | none => emptyBalanceSummary
    .ok (items, summary)

/-- C5: for every envelope, success is decided solely by string equality of
`rt_cd` with `"0"`, and every non-`"0"` return code (numeric-looking or not)
yields the remote error carrying `msg_cd` and `msg1` verbatim — for the
single-result calls and for the list call (`domestic_balance`) alike. -/
theorem envelope_return_code_rule {T : Type} (noOutputMsg : String)
    (r : KisApiResponse T) (rb : BalanceApiResponse) :
    (r.is_success = true ↔ r.rt_cd = "0")
    ∧ (r.rt_cd ≠ "0" →
        envelope_single_result noOutputMsg r = .error (.Api r.msg_cd r.msg1))
    ∧ (rb.rt_cd ≠ "0" →
        balance_envelope_result rb = .error (.Api rb.msg_cd rb.msg1)) := by
  refine ⟨?_, ?_, ?_⟩
  · simp [KisApiResponse.is_success]
  · intro hne
    unfold envelope_single_result
    rw [if_pos (by simp [KisApiResponse.is_success, hne])]
  · intro hne
    unfold balance_envelope_result
    rw [if_pos hne]

/-- C5 witness: the rule applied to an envelope with `rt_cd = "7"`,
`msg_cd = "APBK0013"`, `msg1 = "Invalid account"`, to an envelope with the
non-numeric `rt_cd = "AB"`, to the numeric-looking-but-nonzero
`rt_cd = "00"` (a numeric comparison would accept `"00"`), and to a balance
envelope with `rt_cd = "7"`. -/
theorem envelope_return_code_rule_witness :
    order_envelope_result
        { rt_cd := "7", msg_cd := "APBK0013", msg1 := "Invalid account",
          output := some { odno := some "1", ord_tmd := none },
          output1 := none, output2 := none }
      = .error (.Api "APBK0013" "Invalid account")
    ∧ order_envelope_result
        { rt_cd := "AB", msg_cd := "EGW00123", msg1 := "token error",
          output := none, output1 := none, output2 := none }
      = .error (.Api "EGW00123" "token error")
    ∧ order_envelope_result
        { rt_cd := "00", msg_cd := "X", msg1 := "y",
          output := some { odno := none, ord_tmd := none },
          output1 := none, output2 := none }
      = .error (.Api "X" "y")
    ∧ balance_envelope_result
        { rt_cd := "7", msg_cd := "APBK0013", msg1 := "Invalid account",
          output1 := none, output2 := none }
      = .error (.Api "APBK0013" "Invalid account") := by
  refine ⟨?_, ?_, ?_, ?_⟩
  · exact (envelope_return_code_rule "No output in order response" _
      { rt_cd := "0", msg_cd := "", msg1 := "", output1 := none, output2 := none }).2.1
      (by decide)
  · exact (envelope_return_code_rule "No output in order response" _
      { rt_cd := "0", msg_cd := "", msg1 := "", output1 := none, output2 := none }).2.1
      (by decide)
  · exact (envelope_return_code_rule "No output in order response" _
      { rt_cd := "0", msg_cd := "", msg1 := "", output1 := none, output2 := none }).2.1
      (by decide)
  · exact (envelope_return_code_rule (T := CashOrderResponse) "No output in order response"
      { rt_cd := "0", msg_cd := "", msg1 := "", output := none,
        output1 := none, output2 := none } _).2.2 (by decide)

/-- C7: a balance envelope with `rt_cd = "0"` and no `output1` list succeeds
with the empty list of holdings — an absent list is "no rows", never an
error. -/
theorem balance_missing_list_is_empty (r : BalanceApiResponse)
    (h0 : r.rt_cd = "0") (hnone : r.output1 = none) :
    ∃ s, balance_envelope_result r = .ok ([], s) := by
  refine ⟨match r.output2 with
    | some (s :: _) => s
    | some [] => emptyBalanceSummary
    | none => emptyBalanceSummary, ?_⟩
  unfold balance_envelope_result
  rw [if_neg (by simp [h0]), hnone]
  rfl

/-- C7 witness: the theorem applied to a concrete successful balance
envelope with no `output1`. -/
theorem balance_missing_list_is_empty_witness :
    ∃ s, balance_envelope_result
        { rt_cd := "0", msg_cd := "APBK0000", msg1 := "ok",
          output1 := none, output2 := none }
      = .ok ([], s) :=
  balance_missing_list_is_empty _ rfl rfl

/-! ## Plugin shell: `initialize` and account-number slicing
(`src/lib.rs` lines 100-123, `src/kis/mod.rs` lines 56-64)

Rust strings are UTF-8 byte sequences; `String::len` counts bytes and
`&s[a..b]` panics unless `a` and `b` are char boundaries.  The account
number is therefore modelled at the byte level: a `List Nat` of UTF-8 code
units.  A byte in `[0x80, 0xC0)` is a continuation byte; any other byte
starts a character. -/

/-- Rust `str::is_char_boundary`: true at 0, at the total length, and at any
in-range index holding a non-continuation byte. -/
def is_char_boundary (s : List Nat) (i : Nat) : Bool :=
  if i = 0 then true
  else if i = s.length then true
  else
    match s[i]? with
    | some b => decide (b < 0x80 ∨ 0xC0 ≤ b)
    | none => false

/-- Rust byte-range slicing `&s[a..b]`: `none` models the panic (out of
range, reversed range, or a cut through a multi-byte character). -/
def slice_utf8 (s : List Nat) (a b : Nat) : Option (List Nat) :=
  if a ≤ b ∧ is_char_boundary s a ∧ is_char_boundary s b then
    some ((s.drop a).take (b - a))
  else
    none

/-- Number of characters of a UTF-8 byte sequence: one per non-continuation
byte. -/
def utf8_char_count (s : List Nat) : Nat :=
  (s.filter (fun b => decide (b < 0x80 ∨ 0xC0 ≤ b))).length

/-- Client configuration captured by the `initialize` entry point
(`KisConfig`, src/kis/types.rs lines 6-16), with the account number kept as
UTF-8 bytes. -/
structure PluginClient where
  app_key : String
  app_secret : String
  account_no : List Nat
  is_paper : Bool
deriving DecidableEq

/-- Outcome of the `initialize` entry point: a failure response (serialized
with `success: false` and the error text), or a constructed client. -/
inductive InitOutcome where
  | rejected (err : String) : InitOutcome
  | accepted (client : PluginClient) : InitOutcome
deriving DecidableEq

/-- Model of the `initialize` entry point's validation and client
construction (src/lib.rs lines 100-123).  `account_no.len() != 10` is a
BYTE-length check. -/
def init_plugin (app_key app_secret : String) (account_no : List Nat)
    (is_paper : Bool) : InitOutcome :=
  if app_key = "" ∨ app_secret = "" ∨ account_no = [] then
    .rejected "Missing required configuration: app_key, app_secret, or account_no"
  else if account_no.length ≠ 10 then
    .rejected "account_no must be 10 digits (CANO 8 + ACNT_PRDT_CD 2)"
  else
    .accepted { app_key := app_key, app_secret := app_secret,
                account_no := account_no, is_paper := is_paper }

/-- Model of `KisClient::cano` (src/kis/mod.rs lines 57-59):
`&self.config.account_no[..8]`; `none` models the slicing panic. -/
def cano_bytes (c : PluginClient) : Option (List Nat) :=
  slice_utf8 c.account_no 0 8

/-- Model of `KisClient::acnt_prdt_cd` (src/kis/mod.rs lines 62-64):
`&self.config.account_no[8..10]`. -/
def acnt_prdt_cd_bytes (c : PluginClient) : Option (List Nat) :=
  slice_utf8 c.account_no 8 10

/-- Ten UTF-8 bytes spelling `1234567é9` (the `é` is the two bytes
`0xC3 0xA9`): nine characters, ten bytes, and byte index 8 falls inside the
two-byte character. -/
def accountNoCex : List Nat :=
  [49, 50, 51, 52, 53, 54, 55, 0xC3, 0xA9, 57]

/-- C10 (counterexample): `initialize` accepts a configuration whose
account number is NOT ten characters (it is nine characters in ten bytes),
and on the client it constructs, `cano` hits a non-char-boundary slice —
the Rust code panics instead of succeeding. -/
theorem init_account_slicing_cex :
    utf8_char_count accountNoCex = 9
    ∧ init_plugin "key" "secret" accountNoCex true
        = .accepted { app_key := "key", app_secret := "secret",
                      account_no := accountNoCex, is_paper := true }
    ∧ cano_bytes { app_key := "key", app_secret := "secret",
                   account_no := accountNoCex, is_paper := true } = none := by
  refine ⟨by decide, ?_, by decide⟩
  rfl

/-- C10 (amended): `initialize` refuses every configuration whose account
number is not exactly 10 BYTES long, and for every client whose account
number additionally is all-ASCII (in particular the documented ten digits),
`cano` and `acnt_prdt_cd` succeed, returning bytes 0..8 and 8..10. -/
theorem init_account_slicing (ak sk : String) (acc : List Nat) (paper : Bool)
    (h10 : acc.length = 10) (hascii : ∀ b ∈ acc, b < 128) :
    cano_bytes { app_key := ak, app_secret := sk, account_no := acc, is_paper := paper }
        = some (acc.take 8)
    ∧ acnt_prdt_cd_bytes
        { app_key := ak, app_secret := sk, account_no := acc, is_paper := paper }
        = some ((acc.drop 8).take 2)
    ∧ (∀ ak2 sk2 acc2 paper2 c, acc2.length ≠ 10 →
        init_plugin ak2 sk2 acc2 paper2 ≠ .accepted c) := by
  have hb : ∀ i, i < 10 → is_char_boundary acc i = true := by
    intro i hi
    unfold is_char_boundary
    rcases Nat.eq_zero_or_pos i with h0 | hpos
    · rw [if_pos h0]
    · rw [if_neg (by omega)]
      have hlt : i < acc.length := by omega
      rw [if_neg (by omega)]
      rw [List.getElem?_eq_getElem hlt]
      have hmem : acc[i] ∈ acc := List.getElem_mem hlt
      have := hascii _ hmem
      simp only [decide_eq_true_eq]
      left
      omega
  have hlen : is_char_boundary acc 10 = true := by
    unfold is_char_boundary
    rw [if_neg (by omega), if_pos (by omega)]
  refine ⟨?_, ?_, ?_⟩
  · unfold cano_bytes slice_utf8
    rw [if_pos ⟨by omega, hb 0 (by omega), hb 8 (by omega)⟩]
    simp
  · unfold acnt_prdt_cd_bytes slice_utf8
    rw [if_pos ⟨by omega, hb 8 (by omega), hlen⟩]
  · intro ak2 sk2 acc2 paper2 c hne
    unfold init_plugin
    split
    · exact fun h => InitOutcome.noConfusion h
    · exact fun h => InitOutcome.noConfusion h

/-- Ten ASCII digit bytes spelling `1234567890`. -/
def asciiAccount : List Nat := [49, 50, 51, 52, 53, 54, 55, 56, 57, 48]

/-- Client built from the all-ASCII ten-digit account number. -/
def asciiClient : PluginClient :=
  { app_key := "k", app_secret := "s", account_no := asciiAccount, is_paper := true }

/-- C10 witness: the amended theorem applied to the ten-digit account number
`1234567890`. -/
theorem init_account_slicing_witness :
    cano_bytes asciiClient = some [49, 50, 51, 52, 53, 54, 55, 56]
    ∧ acnt_prdt_cd_bytes asciiClient = some [57, 48] := by
  have h := init_account_slicing "k" "s" asciiAccount true (by decide) (by decide)
  exact ⟨h.1, h.2.1⟩

/-! ## Remote-call model (`src/http.rs` script, `src/kis/auth.rs`,
`src/kis/mod.rs`, `src/kis/domestic_stock.rs`)

The host transport is modelled as a `Host`: a script of pending responses
consumed one per issued call, together with the ordered trace of the request
paths of every call issued so far.  `Host.call` is the model of
`HttpClient::get`/`post_json` reaching `execute`; when the script is
exhausted the host answers with the null response. -/

mutual

/-- Rendering of a JSON tree back to text (string escaping omitted); stands
for the raw body in diagnostic messages. -/
def Json.render : Json → String
  | .null => "null"
  | .bool b => if b then "true" else "false"
  | .num n => toString n
  | .str s => "\"" ++ s ++ "\""
  | .arr xs => "[" ++ Json.render_elems xs ++ "]"
  | .obj fs => "\x7b" ++ Json.render_fields fs ++ "\x7d"

/-- Comma-separated rendering of array elements. -/
def Json.render_elems : List Json → String
  | [] => ""
  | [x] => Json.render x
  | x :: xs => Json.render x ++ "," ++ Json.render_elems xs

/-- Comma-separated rendering of object fields. -/
def Json.render_fields : List (String × Json) → String
  | [] => ""
  | [(k, v)] => "\"" ++ k ++ "\":" ++ Json.render v
  | (k, v) :: fs => "\"" ++ k ++ "\":" ++ Json.render v ++ "," ++ Json.render_fields fs

end

/-- Body text of a response (empty when the body is not valid JSON). -/
def HttpResponse.bodyText (r : HttpResponse) : String :=
  match r.body with
  | none => ""
  | some j => j.render

/-- Serde model: deserializing a struct requires a JSON object. -/
def ensure_obj (j : Json) : Except String Unit :=
  match j with
  | .obj _ => .ok ()
  | _ => .error "expected object"

/-- Serde model: a required `String` field. -/
def req_string_field (j : Json) (k : String) : Except String String :=
  match (j.getField k).bind Json.asString with
  | some s => .ok s
  | none => .error ("missing or invalid field " ++ k)

/-- Serde model: an `Option<String>` field — absent is `None`, present with
a non-string value is a deserialization error. -/
def opt_string_field (j : Json) (k : String) : Except String (Option String) :=
  match j.getField k with
  | none => .ok none
  | some v =>
    match v.asString with
    | some s => .ok (some s)
    | none => .error ("invalid field " ++ k)

/-- Serde model: a required `u64` field. -/
def req_u64_field (j : Json) (k : String) : Except String Nat :=
  match j.getField k with
  | some (.num n) =>
    if 0 ≤ n ∧ n < 2 ^ 64 then .ok n.toNat else .error ("invalid field " ++ k)
  | _ => .error ("missing or invalid field " ++ k)

/-- Model of the wire struct `TokenResponse` (src/kis/auth.rs lines 28-34). -/
structure TokenResponse where
  access_token : String
  token_type : String
  expires_in : Nat
  access_token_token_expired : Option String

/-- Serde deserialization of `TokenResponse`. -/
def parse_token_response (j : Json) : Except String TokenResponse := do
  let _ ← ensure_obj j
  let access_token ← req_string_field j "access_token"
  let token_type ← req_string_field j "token_type"
  let expires_in ← req_u64_field j "expires_in"
  let access_token_token_expired ← opt_string_field j "access_token_token_expired"
  pure { access_token, token_type, expires_in, access_token_token_expired }

/-- Serde deserialization of `HashkeyResponse` (fields `HASH` and
`BODY.HASH`, src/kis/auth.rs lines 77-89). -/
def parse_hashkey_response (j : Json) : Except String HashkeyResponse := do
  let _ ← ensure_obj j
  let hash ← opt_string_field j "HASH"
  let body ←
    match j.getField "BODY" with
    | none => pure none
    | some v => do
      let _ ← ensure_obj v
      let hv ← req_string_field v "HASH"
      pure (some (⟨hv⟩ : HashkeyBody))
  pure { body := body, hash := hash }

/-- Serde deserialization of `CashOrderResponse` (fields `ODNO`,
`ORD_TMD`). -/
def parse_cash_order_response (j : Json) : Except String CashOrderResponse := do
  let _ ← ensure_obj j
  let odno ← opt_string_field j "ODNO"
  let ord_tmd ← opt_string_field j "ORD_TMD"
  pure { odno, ord_tmd }

/-- Serde deserialization of the envelope `KisApiResponse<T>`
(src/kis/types.rs lines 74-87), given the payload deserializer. -/
def parse_kis_api {T : Type} (pT : Json → Except String T) (j : Json) :
    Except String (KisApiResponse T) := do
  let _ ← ensure_obj j
  let rt_cd ← req_string_field j "rt_cd"
  let msg_cd ← req_string_field j "msg_cd"
  let msg1 ← req_string_field j "msg1"
  let output ←
    match j.getField "output" with
    | none => pure none
    | some v => do pure (some (← pT v))
  let output1 ←
    match j.getField "output1" with
    | none => pure none
    | some (.arr xs) => do pure (some (← xs.mapM pT))
    | some _ => Except.error "invalid field output1"
  let output2 := j.getField "output2"
  pure { rt_cd, msg_cd, msg1, output, output1, output2 }

/-- Model of `HttpResponse::json::<T>()` (src/http.rs lines 52-54). -/
def HttpResponse.json_as {T : Type} (p : Json → Except String T)
    (r : HttpResponse) : Except String T :=
  match r.body with
  | none => .error "JSON parse error: invalid body"
  | some j => p j

/-- The host transport: a script of pending responses and the trace of
issued call paths. -/
structure Host where
  pending : List HttpResponse
  trace : List String

/-- Issue one call: consume the next scripted response (null response when
exhausted) and record the path. -/
def Host.call (h : Host) (path : String) : HttpResponse × Host :=
  match h.pending with
  | [] => (nullHttpResponse, { pending := [], trace := h.trace ++ [path] })
  | r :: rest => (r, { pending := rest, trace := h.trace ++ [path] })

/-- Response handling of `get_token` (src/kis/auth.rs lines 46-66): check
transport success, deserialize, compute the absolute expiry from the
acquisition instant. -/
def get_token_response (response : HttpResponse) (now : Nat) :
    Except KisError TokenInfo :=
  if response.is_success = false then
    .error (.Auth ("Token request failed: " ++ toString response.status ++ " - "
      ++ response.error.getD response.bodyText))
  else
    match response.json_as parse_token_response with
    | .error e => .error (.Parse ("Failed to parse token response: " ++ e))
    | .ok tr =>
      .ok { access_token := tr.access_token, token_type := tr.token_type,
            expires_in := tr.expires_in,
            expires_at := token_expires_at now tr.expires_in }

/-- Model of `get_token` (src/kis/auth.rs lines 37-67): one POST to
`/oauth2/tokenP`, then pure response handling. -/
def get_token (h : Host) (now : Nat) : Except KisError TokenInfo × Host :=
  let rh := h.call "/oauth2/tokenP"
  (get_token_response rh.1 now, rh.2)

/-- Response handling of `get_hashkey` (src/kis/auth.rs lines 106-126):
check transport success, deserialize, then extract via
`hashkey_of_response`. -/
def hashkey_response_result (response : HttpResponse) : Except KisError String :=
  if response.is_success = false then
    .error (.Auth ("Hashkey request failed: " ++ toString response.status ++ " - "
      ++ response.error.getD response.bodyText))
  else
    match response.json_as parse_hashkey_response with
    | .error e => .error (.Parse ("Failed to parse hashkey response: " ++ e))
    | .ok hr => hashkey_of_response hr

/-- Model of `get_hashkey` (src/kis/auth.rs lines 94-127): one POST to
`/uapi/hashkey` (appkey/appsecret headers attached), then pure response
handling. -/
def auth_get_hashkey (app_key app_secret : String) (h : Host) :
    Except KisError String × Host :=
  let _headers := [("appkey", app_key), ("appsecret", app_secret),
    ("Content-Type", "application/json")]
  let rh := h.call "/uapi/hashkey"
  (hashkey_response_result rh.1, rh.2)

/-- Model of `KisClient` (src/kis/mod.rs lines 29-33) with its `KisConfig`
fields inlined; the account number is kept as a Lean string here (the
byte-level slicing subtlety is modelled separately for the `initialize`
claim). -/
structure KisClient where
  app_key : String
  app_secret : String
  account_no : String
  is_paper : Bool
  token : Option TokenInfo

/-- Model of `KisClient::cano` (`&account_no[..8]`) for ASCII account
numbers. -/
def KisClient.cano (c : KisClient) : String := c.account_no.take 8

/-- Model of `KisClient::acnt_prdt_cd` (`&account_no[8..10]`) for ASCII
account numbers. -/
def KisClient.acnt_prdt_cd (c : KisClient) : String :=
  (c.account_no.drop 8).take 2

/-- Model of `KisClient::is_authenticated` (src/kis/mod.rs lines 67-72). -/
def KisClient.is_authenticated (c : KisClient) (now : Nat) : Bool :=
  match c.token with
  | some t => !(t.is_expired now)
  | none => false

/-- Model of `KisClient::authenticate` (src/kis/mod.rs lines 83-87): acquire
a token and store it (wholesale replacement). -/
def KisClient.authenticate (c : KisClient) (now : Nat) (h : Host) :
    Except KisError Unit × KisClient × Host :=
  match get_token h now with
  | (.ok tok, h2) => (.ok (), { c with token := some tok }, h2)
  | (.error e, h2) => (.error e, c, h2)

/-- Model of `KisClient::ensure_auth` (src/kis/mod.rs lines 75-80). -/
def KisClient.ensure_auth (c : KisClient) (now : Nat) (h : Host) :
    Except KisError Unit × KisClient × Host :=
  if c.is_authenticated now then (.ok (), c, h)
  else c.authenticate now h

/-- Model of `KisClient::build_headers` (src/kis/mod.rs lines 95-111). -/
def KisClient.build_headers (c : KisClient) (tr_id : String) :
    Except KisError (List (String × String)) :=
  match c.token with
  | none => .error (.Auth "Not authenticated. Call authenticate() first.")
  | some t =>
    .ok [("authorization", "Bearer " ++ t.access_token),
      ("appkey", c.app_key), ("appsecret", c.app_secret),
      ("tr_id", tr_id), ("custtype", "P")]

/-- Model of `OrderType` (src/kis/types.rs lines 115-131). -/
inductive OrderType where
  | Limit | Market | ConditionalLimit | BestLimit | PriorityLimit
  | PreMarket | AfterMarket
deriving DecidableEq

/-- Model of `OrderType::code` (src/kis/types.rs lines 135-145). -/
def OrderType.code : OrderType → String
  | .Limit => "00"
  | .Market => "01"
  | .ConditionalLimit => "02"
  | .BestLimit => "03"
  | .PriorityLimit => "04"
  | .PreMarket => "05"
  | .AfterMarket => "06"

/-- Model of `CashOrderRequest` (src/kis/domestic_stock.rs lines 16-36). -/
structure CashOrderRequest where
  cano : String
  acnt_prdt_cd : String
  pdno : String
  ord_dvsn : String
  ord_qty : String
  ord_unpr : String

/-- Response handling of the order POST in `domestic_buy`/`domestic_sell`
(src/kis/domestic_stock.rs lines 226-247): transport check, envelope
deserialization, then the shared envelope rule. -/
def order_response_result (response : HttpResponse) :
    Except KisError CashOrderResponse :=
  if response.is_success = false then
    .error (.Api (toString response.status) (response.error.getD response.bodyText))
  else
    match response.json_as (parse_kis_api parse_cash_order_response) with
    | .error e => .error (.Parse ("Failed to parse order response: " ++ e))
    | .ok api => order_envelope_result api

/-- Model of `KisClient::domestic_buy` (src/kis/domestic_stock.rs lines
190-247): ensure authentication, build the request, fetch the hashkey,
assemble headers, POST the order, handle the envelope. -/
def KisClient.domestic_buy (c : KisClient) (now : Nat) (symbol : String)
    (quantity price : Nat) (order_type : OrderType) (h : Host) :
    Except KisError CashOrderResponse × KisClient × Host :=
  match c.ensure_auth now h with
  | (.error e, c1, h1) => (.error e, c1, h1)
  | (.ok _, c1, h1) =>
    let request : CashOrderRequest :=
      { cano := c1.cano, acnt_prdt_cd := c1.acnt_prdt_cd, pdno := symbol,
        ord_dvsn := order_type.code, ord_qty := toString quantity,
        ord_unpr := toString price }
    let tr_id := if c1.is_paper then "VTTC0802U" else "TTTC0802U"
    match auth_get_hashkey c1.app_key c1.app_secret h1 with
    | (.error e, h2) => (.error e, c1, h2)
    | (.ok hashkey, h2) =>
      match c1.build_headers tr_id with
      | .error e => (.error e, c1, h2)
      | .ok headers =>
        let _headers2 := headers ++ [("hashkey", hashkey)]
        let rh := h2.call "/uapi/domestic-stock/v1/trading/order-cash"
        (order_response_result rh.1, c1, rh.2)

/-- Model of `KisClient::domestic_sell` (src/kis/domestic_stock.rs lines
256-313): identical to `domestic_buy` except for the transaction ids. -/
def KisClient.domestic_sell (c : KisClient) (now : Nat) (symbol : String)
    (quantity price : Nat) (order_type : OrderType) (h : Host) :
    Except KisError CashOrderResponse × KisClient × Host :=
  match c.ensure_auth now h with
  | (.error e, c1, h1) => (.error e, c1, h1)
  | (.ok _, c1, h1) =>
    let request : CashOrderRequest :=
      { cano := c1.cano, acnt_prdt_cd := c1.acnt_prdt_cd, pdno := symbol,
        ord_dvsn := order_type.code, ord_qty := toString quantity,
        ord_unpr := toString price }
    let tr_id := if c1.is_paper then "VTTC0801U" else "TTTC0801U"
    match auth_get_hashkey c1.app_key c1.app_secret h1 with
    | (.error e, h2) => (.error e, c1, h2)
    | (.ok hashkey, h2) =>
      match c1.build_headers tr_id with
      | .error e => (.error e, c1, h2)
      | .ok headers =>
        let _headers2 := headers ++ [("hashkey", hashkey)]
        let rh := h2.call "/uapi/domestic-stock/v1/trading/order-cash"
        (order_response_result rh.1, c1, rh.2)

/-- Issuing a call appends exactly its path to the trace. -/
theorem Host.call_trace (h : Host) (p : String) :
    (h.call p).2.trace = h.trace ++ [p] := by
  unfold Host.call
  cases h.pending <;> rfl

/-- Token acquisition issues exactly one call, to `/oauth2/tokenP`. -/
theorem get_token_trace (h : Host) (now : Nat) :
    (get_token h now).2.trace = h.trace ++ ["/oauth2/tokenP"] :=
  Host.call_trace h "/oauth2/tokenP"

/-- Hashkey signing issues exactly one call, to `/uapi/hashkey`. -/
theorem auth_get_hashkey_trace (ak sk : String) (h : Host) :
    (auth_get_hashkey ak sk h).2.trace = h.trace ++ ["/uapi/hashkey"] :=
  Host.call_trace h "/uapi/hashkey"

/-- Authenticating issues exactly the token-acquisition call, whether or not
it succeeds. -/
theorem authenticate_trace (c : KisClient) (now : Nat) (h : Host) :
    (c.authenticate now h).2.2.trace = h.trace ++ ["/oauth2/tokenP"] := by
  unfold KisClient.authenticate
  rcases hg : get_token h now with ⟨rg, h2⟩
  have h2t : h2.trace = h.trace ++ ["/oauth2/tokenP"] := by
    have hx := get_token_trace h now
    rw [hg] at hx
    exact hx
  cases rg <;> exact h2t

/-- On a fresh (tokenless) client, `ensure_auth` always authenticates. -/
theorem ensure_auth_fresh (c : KisClient) (now : Nat) (h : Host)
    (hfresh : c.token = none) :
    c.ensure_auth now h = c.authenticate now h := by
  have hb : c.is_authenticated now = false := by
    unfold KisClient.is_authenticated
    rw [hfresh]
  unfold KisClient.ensure_auth
  rw [hb]
  simp

/-- C1 (amended): starting from a fresh (unauthenticated) session, a
mutating domain call that returns successfully issues exactly one
token-acquisition call, then one signing call, then one domain call, in
that order — the credential is acquired BEFORE the signing request, not
after it.  Proved for `domestic_buy` and `domestic_sell`
(`domestic_revise_order` and `domestic_cancel_order` share the same
`ensure_auth`-then-`get_hashkey`-then-POST structure). -/
theorem fresh_mutating_call_sequence (c : KisClient) (now quantity price : Nat)
    (symbol : String) (ot : OrderType) (h : Host) (hfresh : c.token = none) :
    (∀ r, (c.domestic_buy now symbol quantity price ot h).1 = .ok r →
      (c.domestic_buy now symbol quantity price ot h).2.2.trace
        = h.trace ++ ["/oauth2/tokenP", "/uapi/hashkey",
            "/uapi/domestic-stock/v1/trading/order-cash"])
    ∧ (∀ r, (c.domestic_sell now symbol quantity price ot h).1 = .ok r →
      (c.domestic_sell now symbol quantity price ot h).2.2.trace
        = h.trace ++ ["/oauth2/tokenP", "/uapi/hashkey",
            "/uapi/domestic-stock/v1/trading/order-cash"]) := by
  constructor
  · intro r hok
    unfold KisClient.domestic_buy at hok ⊢
    rw [ensure_auth_fresh c now h hfresh] at hok ⊢
    rcases hEA : c.authenticate now h with ⟨rEA, c1, h1⟩
    rw [hEA] at hok
    have h1t : h1.trace = h.trace ++ ["/oauth2/tokenP"] := by
      have hx := authenticate_trace c now h
      rw [hEA] at hx
      exact hx
    cases rEA with
    | error e => simp at hok
    | ok u =>
      dsimp only at hok ⊢
      rcases hHK : auth_get_hashkey c1.app_key c1.app_secret h1 with ⟨rHK, h2⟩
      rw [hHK] at hok
      have h2t : h2.trace = h1.trace ++ ["/uapi/hashkey"] := by
        have hx := auth_get_hashkey_trace c1.app_key c1.app_secret h1
        rw [hHK] at hx
        exact hx
      cases rHK with
      | error e => simp at hok
      | ok key =>
        dsimp only at hok ⊢
        cases hBH : c1.build_headers (if c1.is_paper then "VTTC0802U" else "TTTC0802U") with
        | error e =>
          rw [hBH] at hok
          simp at hok
        | ok headers =>
          dsimp only
          rw [Host.call_trace h2 "/uapi/domestic-stock/v1/trading/order-cash", h2t, h1t]
          simp
  · intro r hok
    unfold KisClient.domestic_sell at hok ⊢
    rw [ensure_auth_fresh c now h hfresh] at hok ⊢
    rcases hEA : c.authenticate now h with ⟨rEA, c1, h1⟩
    rw [hEA] at hok
    have h1t : h1.trace = h.trace ++ ["/oauth2/tokenP"] := by
      have hx := authenticate_trace c now h
      rw [hEA] at hx
      exact hx
    cases rEA with
    | error e => simp at hok
    | ok u =>
      dsimp only at hok ⊢
      rcases hHK : auth_get_hashkey c1.app_key c1.app_secret h1 with ⟨rHK, h2⟩
      rw [hHK] at hok
      have h2t : h2.trace = h1.trace ++ ["/uapi/hashkey"] := by
        have hx := auth_get_hashkey_trace c1.app_key c1.app_secret h1
        rw [hHK] at hx
        exact hx
      cases rHK with
      | error e => simp at hok
      | ok key =>
        dsimp only at hok ⊢
        cases hBH : c1.build_headers (if c1.is_paper then "VTTC0801U" else "TTTC0801U") with
        | error e =>
          rw [hBH] at hok
          simp at hok
        | ok headers =>
          dsimp only
          rw [Host.call_trace h2 "/uapi/domestic-stock/v1/trading/order-cash", h2t, h1t]
          simp

/-- Successful token-endpoint body: access token, type, 86400-second
lifetime. -/
def tokenOkBody : Json :=
  .obj [("access_token", .str "tok"), ("token_type", .str "Bearer"),
    ("expires_in", .num 86400)]

/-- Successful hashkey-endpoint body (bare top-level field). -/
def hashOkBody : Json := .obj [("HASH", .str "hash123")]

/-- Successful order-endpoint body: `rt_cd = "0"` with an `output`
payload. -/
def orderOkBody : Json :=
  .obj [("rt_cd", .str "0"), ("msg_cd", .str "APBK0000"), ("msg1", .str "ok"),
    ("output", .obj [("ODNO", .str "0000117057"), ("ORD_TMD", .str "121052")])]

/-- An HTTP 200 response around the given body. -/
def okResp (b : Json) : HttpResponse :=
  { status := 200, body := some b, error := none }

/-- Host scripted to answer the three calls of a first mutating call, all
successfully. -/
def scriptedHost : Host :=
  { pending := [okResp tokenOkBody, okResp hashOkBody, okResp orderOkBody],
    trace := [] }

/-- A fresh (unauthenticated) paper-trading client. -/
def freshClient : KisClient :=
  { app_key := "ak", app_secret := "sk", account_no := "1234567801",
    is_paper := true, token := none }

/-- C1 (counterexample): on a fresh session, a successful `domestic_buy`
issues the token-acquisition call FIRST and the signing call second — the
observed sequence is token, signing, domain, not the claimed signing,
token, domain. -/
theorem fresh_mutating_call_sequence_cex :
    (freshClient.domestic_buy 1000 "005930" 10 70000 .Limit scriptedHost).1
      = .ok { odno := some "0000117057", ord_tmd := some "121052" }
    ∧ (freshClient.domestic_buy 1000 "005930" 10 70000 .Limit scriptedHost).2.2.trace
      = ["/oauth2/tokenP", "/uapi/hashkey", "/uapi/domestic-stock/v1/trading/order-cash"]
    ∧ ["/oauth2/tokenP", "/uapi/hashkey", "/uapi/domestic-stock/v1/trading/order-cash"]
      ≠ ["/uapi/hashkey", "/oauth2/tokenP", "/uapi/domestic-stock/v1/trading/order-cash"] := by
  refine ⟨?_, ?_, by decide⟩ <;> rfl

/-- C1 witness: the amended sequence theorem applied to the fresh client and
the all-success script, for both `domestic_buy` and `domestic_sell`. -/
theorem fresh_mutating_call_sequence_witness :
    (freshClient.domestic_buy 1000 "005930" 10 70000 .Limit scriptedHost).2.2.trace
      = ["/oauth2/tokenP", "/uapi/hashkey", "/uapi/domestic-stock/v1/trading/order-cash"]
    ∧ (freshClient.domestic_sell 1000 "005930" 10 70000 .Limit scriptedHost).2.2.trace
      = ["/oauth2/tokenP", "/uapi/hashkey", "/uapi/domestic-stock/v1/trading/order-cash"] := by
  have h := fresh_mutating_call_sequence freshClient 1000 10 70000 "005930" .Limit
    scriptedHost rfl
  exact ⟨h.1 { odno := some "0000117057", ord_tmd := some "121052" } rfl,
    h.2 { odno := some "0000117057", ord_tmd := some "121052" } rfl⟩

/-! ## Plugin shell entry points (`src/lib.rs`)

The shell converts core results into host-schema responses.  The monetary
fields are `f64` in the source, parsed from the broker's decimal strings
with `.parse().ok()` and defaulted with `unwrap_or(0.0)`; they are modelled
over `Int` with the same absent/failed-parse defaulting (fractional values
are outside the modelled domain and irrelevant to the claims).  Timestamps
(`updated_at`, `created_at`) are wall-clock noise and are omitted; the
id-suffix of a rejected order's `error_{ms}` id is passed in as `now_ms`.
Each entry point is modelled from the point where the core client has
answered, i.e. as a function of the `Except KisError _` result of the
`domestic_balance` / `domestic_buy` / `domestic_sell` call it wraps. -/

/-- Model of `str::parse::<f64>().ok()` on the broker's decimal strings
(integral domain). -/
def parseNum (s : String) : Option Int := s.toInt?

/-- Model of the host-schema `Position` (integral amounts). -/
structure MPosition where
  symbol_id : String
  quantity : Int
  average_price : Int
  current_price : Int
  unrealized_pnl : Int
  unrealized_pnl_percent : Int

/-- Model of the host-schema `AccountBalance`. -/
structure MAccountBalance where
  currency : String
  total_equity : Int
  available_cash : Int
  buying_power : Int
  locked_cash : Int

/-- Model of the host-schema `AccountSummary` (without `updated_at`). -/
structure MAccountSummary where
  id : String
  name : String
  broker_id : String
  is_paper : Bool
  balance : MAccountBalance
  positions : List MPosition
  extensions : Option (List (String × Json))

/-- Position conversion in `get_accounts`/`get_positions` (src/lib.rs lines
176-195 and 260-279): every field must be present and parse, or the row is
dropped. -/
def balance_item_to_position (item : BalanceItem) : Option MPosition := do
  let symbol ← item.pdno
  let quantity ← item.hldg_qty.bind parseNum
  let avg_price ← item.pchs_avg_pric.bind parseNum
  let current_price ← item.prpr.bind parseNum
  let pnl ← item.evlu_pfls_amt.bind parseNum
  let pnl_rate ← item.evlu_pfls_rt.bind parseNum
  pure { symbol_id := symbol, quantity := quantity, average_price := avg_price,
         current_price := current_price, unrealized_pnl := pnl,
         unrealized_pnl_percent := pnl_rate }

/-- Model of `create_error_account` (src/lib.rs lines 389-406). -/
def create_error_account (error : String) : MAccountSummary :=
  { id := "error", name := "Error: " ++ error, broker_id := "broker-korea",
    is_paper := true,
    balance := { currency := "KRW", total_equity := 0, available_cash := 0,
                 buying_power := 0, locked_cash := 0 },
    positions := [], extensions := none }

/-- Model of the `get_accounts` entry point (src/lib.rs lines 133-233) as a
function of the `domestic_balance` result. -/
def get_accounts_model (account_no : String) (is_paper : Bool)
    (client_present : Bool)
    (bal : Except KisError (List BalanceItem × BalanceSummary)) :
    List MAccountSummary :=
  if client_present = false then
    [create_error_account "Plugin not initialized"]
  else
    let conv :=
      match bal with
      | .ok (items, summary) =>
        let total_equity := (summary.tot_evlu_amt.bind parseNum).getD 0
        let available_cash := (summary.ord_psbl_cash.bind parseNum).getD 0
        let deposit := (summary.dnca_tot_amt.bind parseNum).getD 0
        (({ currency := "KRW", total_equity := total_equity,
            available_cash := available_cash, buying_power := available_cash,
            locked_cash := deposit - available_cash } : MAccountBalance),
         items.filterMap balance_item_to_position)
      | .error _ =>
        (({ currency := "KRW", total_equity := 0, available_cash := 0,
            buying_power := 0, locked_cash := 0 } : MAccountBalance), [])
    [{ id := account_no,
       name := "KIS " ++ (if is_paper then "Paper" else "Live") ++ " Account",
       broker_id := "broker-korea", is_paper := is_paper,
       balance := conv.1, positions := conv.2, extensions := none }]

/-- Model of the `get_positions` entry point (src/lib.rs lines 238-289) as a
function of the `domestic_balance` result. -/
def get_positions_model (req_account_id state_account_no : String)
    (client_present : Bool)
    (bal : Except KisError (List BalanceItem × BalanceSummary)) :
    List MPosition :=
  if req_account_id ≠ state_account_no then []
  else if client_present = false then []
  else
    match bal with
    | .ok (items, _) => items.filterMap balance_item_to_position
    | .error _ => []

/-- Model of the host-schema `OrderSide` (`models::order`). -/
inductive MOrderSide where
  | Buy | Sell
deriving DecidableEq

/-- Model of the host-schema `OrderStatus` variants this plugin uses. -/
inductive MOrderStatus where
  | Submitted | Rejected
deriving DecidableEq

/-- Model of the host-schema order request carried in
`SubmitOrderRequest`. -/
structure MOrderRequest where
  symbol_id : String
  quantity : Nat
  side : MOrderSide
  limit_price : Option Nat
  persona_id : Option String

/-- Model of the host-schema `Order` (without timestamps). -/
structure MOrder where
  id : String
  request : MOrderRequest
  status : MOrderStatus
  average_filled_price : Option Int
  filled_quantity : Int
  extensions : Option (List (String × Json))

/-- Model of `create_error_order` (src/lib.rs lines 408-424): rejected
status, error text under the `error` extension key. -/
def create_error_order (req : MOrderRequest) (now_ms : Nat) (error : String) :
    MOrder :=
  { id := "error_" ++ toString now_ms, request := req,
    status := .Rejected, average_filled_price := none, filled_quantity := 0,
    extensions := some [("error", .str error)] }

/-- Model of the `submit_order` entry point (src/lib.rs lines 293-367) as a
function of the `domestic_buy`/`domestic_sell` result (the in-process
orders-map bookkeeping is not modelled). -/
def submit_order_model (req : MOrderRequest) (client_present : Bool)
    (result : Except KisError CashOrderResponse)
    (next_order_id now_ms : Nat) : MOrder :=
  if client_present = false then
    create_error_order req now_ms "Plugin not initialized"
  else
    match result with
    | .ok kis_response =>
      let order_id := kis_response.odno.getD ("kr_" ++ toString next_order_id)
      { id := order_id, request := req, status := .Submitted,
        average_filled_price := none, filled_quantity := 0,
        extensions := some (match kis_response.ord_tmd with
          | some time => [("kis_order_time", .str time)]
          | none => []) }
    | .error e =>
      create_error_order req now_ms ("Order failed: " ++ e.render)

/-- C2 (counterexample): when the core client fails, `get_accounts` returns
a response LITERALLY IDENTICAL to a successful empty-account response (zero
balance, no positions, no error marker anywhere), and `get_positions`
likewise returns the same empty list as a legitimate no-rows success — the
core error is converted into a default, success-looking value. -/
theorem core_error_swallowed_cex :
    get_accounts_model "1234567801" true true (.error (.Network "connection refused"))
      = get_accounts_model "1234567801" true true (.ok ([], emptyBalanceSummary))
    ∧ get_positions_model "1234567801" "1234567801" true
        (.error (.Network "connection refused"))
      = get_positions_model "1234567801" "1234567801" true
        (.ok ([], emptyBalanceSummary)) :=
  ⟨rfl, rfl⟩

/-- C2 (amended): only `submit_order` surfaces core errors as a user-visible
rejection (status `Rejected`, with the error text in the `error` extension);
`get_accounts` and `get_positions` instead swallow every core error into a
zero-balance/empty-list response indistinguishable from an empty success. -/
theorem plugin_error_surfacing (req : MOrderRequest) (e : KisError)
    (next_order_id now_ms : Nat) (acct acct2 : String) (paper : Bool) :
    (submit_order_model req true (.error e) next_order_id now_ms).status
      = .Rejected
    ∧ (submit_order_model req true (.error e) next_order_id now_ms).extensions
      = some [("error", .str ("Order failed: " ++ e.render))]
    ∧ get_accounts_model acct paper true (.error e)
      = get_accounts_model acct paper true (.ok ([], emptyBalanceSummary))
    ∧ get_positions_model acct2 acct2 true (.error e)
      = get_positions_model acct2 acct2 true (.ok ([], emptyBalanceSummary)) := by
  refine ⟨rfl, rfl, ?_, ?_⟩
  · rfl
  · rfl
